import Mathlib

/-!
Verification of the provider-abstraction and orchestration layer of the
briefme repository (a Next.js daily-briefing application).

The repository ships two generations of the provider layer inside
`lib/ai_providers.ts`: the current class-based adapters
(`GeminiProvider`, `GroqProvider`, `OllamaProvider` plus the module-level
model registry) and a legacy `AIProviderManager` with free functions
(`generateWithGroq`, `generateTweetsWithGemini`, ...).  The orchestrator
(`generateBriefing`, `generateSingleBriefingForInterest`, ...) lives in
`app/actions.ts`.  The auxiliary web search (`searchWeb`) lives in
`lib/search.ts`.

Modelling conventions for the shallow embedding:
* Asynchronous TypeScript functions that may throw are modelled as pure
  Lean functions returning `Except String α`; a thrown `Error(msg)`
  becomes `Except.error msg`.
* Network backends (the Gemini / Groq / Ollama SDK calls), the external
  `marked` markdown renderer and the built-in `JSON.parse` are third-party
  black boxes; they are passed in as explicit function arguments
  (oracles), so every theorem quantifies over all possible backend
  behaviours and in particular covers the real one.
* `JSON.parse` applied to a response and projected to the field of
  interest is modelled by an oracle `String → TweetsParse` (resp.
  `String → TopicsParse`): either parsing throws, or it succeeds and the
  field is absent / not an array, or it succeeds with an array value.
* JavaScript strings are modelled by Lean `String`; `split`, `trim`,
  `startsWith`, `slice`/`substring`, `indexOf` are modelled by their
  character-level Lean counterparts.  (JS `length` counts UTF-16 units
  while Lean counts characters; none of the verified properties depends
  on the difference.)
* Module-level mutable registry state (`providerState`) is modelled by
  explicit state passing.
-/

/-! ## Data model (lib/types.ts) -/

/-- `SummaryLength` from lib/types.ts. -/
inductive SummaryLength where
  | short
  | medium
  | detailed
deriving DecidableEq, Repr

/-- `AIProvider` from lib/types.ts. -/
inductive AIProvider where
  | gemini
  | groq
  | ollama
deriving DecidableEq, Repr

/-- `BriefingSource` from lib/types.ts. -/
structure BriefingSource where
  title : String
  url : String
  snippet : String
deriving DecidableEq, Repr

/-- `BriefingItem` from lib/types.ts; the optional `error` field is
`Option String`. -/
structure BriefingItem where
  interest : String
  summary : String
  sources : List BriefingSource
  tweets : List String
  error : Option String := none
deriving DecidableEq, Repr

/-- `TrendingTopic` from lib/types.ts. -/
structure TrendingTopic where
  title : String
  description : String
deriving DecidableEq, Repr

/-- `GenerateBriefingResponse` from lib/types.ts. -/
structure GenerateBriefingResponse where
  briefings : List BriefingItem
  errors : List String
deriving DecidableEq, Repr

/-! ## JavaScript string primitives

The JavaScript string methods used by the source are modelled at the
character level (`List Char`), which keeps every definition computable
by the kernel.  JS `length` counts UTF-16 units while these count
characters; every character appearing in the sources is in the basic
multilingual plane, and no verified property depends on the difference
for arbitrary backend content. -/

/-- JS `s.split(sep)` for a one-character separator, over the character
list: an empty string yields one empty part, like in JS. -/
def jsSplitAux (sep : Char) (cur : List Char) : List Char → List String
  | [] => [cur.reverse.asString]
  | c :: cs =>
      if c = sep then cur.reverse.asString :: jsSplitAux sep [] cs
      else jsSplitAux sep (c :: cur) cs

/-- JS `s.split(sep)` for a one-character separator. -/
def jsSplit (s : String) (sep : Char) : List String :=
  jsSplitAux sep [] s.toList

/-- JS `s.trim()`: strip leading and trailing whitespace. -/
def jsTrim (s : String) : String :=
  ((s.toList.dropWhile Char.isWhitespace).reverse.dropWhile
      Char.isWhitespace).reverse.asString

/-- Character-list core of `startsWith`. -/
def jsStartsWithList : List Char → List Char → Bool
  | _, [] => true
  | [], _ :: _ => false
  | c :: cs, p :: ps => c = p && jsStartsWithList cs ps

/-- JS `s.startsWith(pre)`. -/
def jsStartsWith (s pre : String) : Bool :=
  jsStartsWithList s.toList pre.toList

/-- JS `s.endsWith(suf)`. -/
def jsEndsWith (s suf : String) : Bool :=
  jsStartsWithList s.toList.reverse suf.toList.reverse

/-- Occurrence of `sub` anywhere in the character list. -/
def jsIncludesList (sub : List Char) : List Char → Bool
  | [] => sub.isEmpty
  | c :: cs => jsStartsWithList (c :: cs) sub || jsIncludesList sub cs

/-- JS `s.includes(sub)`. -/
def jsIncludes (s sub : String) : Bool :=
  jsIncludesList sub.toList s.toList

/-- JS-style `takeWhile` on a string. -/
def jsTakeWhile (p : Char → Bool) (s : String) : String :=
  (s.toList.takeWhile p).asString

/-- JS-style `dropWhile` on a string. -/
def jsDropWhile (p : Char → Bool) (s : String) : String :=
  (s.toList.dropWhile p).asString

/-- JS `s.toLowerCase()`, character by character (faithful on the ASCII
range, which is all the extraction logic depends on). -/
def jsToLowerCase (s : String) : String :=
  (s.toList.map Char.toLower).asString

/-! ## Shared tweet parsing (class-based providers)

`GeminiProvider.generateTweets`, `GroqProvider.generateTweets` and
`OllamaProvider.generateTweets` all post-process the raw backend response
with the identical code:

  content.split newline, trim each line,
  keep lines with length > 10 that are not code fences and do not
  mention the word tweet, truncate long lines to 267 chars plus an
  ellipsis, keep the first 3; if nothing survives, substitute a fixed
  list of three placeholder tweets.
-/

/-- The line filter used on each trimmed line of the backend response:
`line.length > 10 && !line.startsWith('~~~fence') && !line.includes('tweet')`
(the fence marker is the triple backtick). -/
def tweetLineOk (line : String) : Bool :=
  line.length > 10 && !(jsStartsWith line "```") && !(jsIncludes line "tweet")

/-- `tweet.length > 270 ? tweet.substring(0, 267) + '...' : tweet`. -/
def truncateTweet (tweet : String) : String :=
  if tweet.length > 270 then tweet.take 267 ++ "..." else tweet

/-- The list-processing chain shared by all three class-based
`generateTweets` implementations. -/
def parseTweetLines (content : String) : List String :=
  ((((jsSplit content '\n').map jsTrim).filter tweetLineOk).map
    truncateTweet).take 3

/-- The fixed placeholder tweets substituted when the filter leaves
nothing usable (verbatim from lib/ai_providers.ts, including the
mojibake emoji bytes of the source file). -/
def placeholderTweets : List String :=
  ["ðŸš€ Just witnessed another groundbreaking development in tech! The innovation cycle keeps accelerating with new breakthroughs emerging daily. What\x27s next on the horizon? The pace of technological advancement shows no signs of slowing down.",
   "ðŸ“ˆ Markets are showing strong reactions to the latest industry developments. Companies are pivoting faster than ever to maintain their competitive edge in this dynamic environment. Strategic adaptation is becoming the key to survival.",
   "ðŸŒŸ The technological landscape continues to evolve at breakneck speed. From cutting-edge AI to revolutionary discoveries, we\x27re experiencing unprecedented innovation. The future of technology is unfolding before our eyes."]

/-- `tweets.length > 0 ? tweets : [ ...placeholders ]`, applied to the
parsed lines: the pure core of every class-based `generateTweets`. -/
def tweetsFromContent (content : String) : List String :=
  let tweets := parseTweetLines content
  if tweets.length > 0 then tweets else placeholderTweets

theorem length_parseTweetLines_le (content : String) :
    (parseTweetLines content).length ≤ 3 := by
  unfold parseTweetLines
  exact List.length_take_le 3 _

theorem tweetsFromContent_bounds (content : String) :
    1 ≤ (tweetsFromContent content).length ∧
      (tweetsFromContent content).length ≤ 3 := by
  unfold tweetsFromContent
  by_cases h : (parseTweetLines content).length > 0
  · simp only [h, if_pos]
    exact ⟨h, length_parseTweetLines_le content⟩
  · simp only [h, if_neg]
    simp [placeholderTweets]

/-! ## Class-based provider adapters (lib/ai_providers.ts, current layer)

Each adapter method first checks its availability guards and only then
performs the backend call.  The backend call itself is an oracle
argument: `backend : String → Option String` maps the chosen model id to
the content the SDK returned (`none` models a missing
`choices[0]?.message?.content`, which the code coalesces to the empty
string), and `render : String → String` models the external
`renderMarkdown`/`marked` library.
-/

namespace GeminiProvider

/-- `GeminiProvider.generateTweets`: guard on the API key, then the
shared tweet-parsing chain on the backend response `content`. -/
def generateTweets (hasClient : Bool) (content : String) :
    Except String (List String) :=
  if hasClient = false then Except.error "Gemini API key not configured"
  else Except.ok (tweetsFromContent content)

end GeminiProvider

namespace GroqProvider

/-- `GroqProvider.generateSummary`: fails fast when the API key or the
selected model is missing; otherwise renders the backend content and
attaches the supplementary `searchWeb` sources (`webSources`). -/
def generateSummary (hasClient : Bool) (selectedModel : Option String)
    (backend : String → Option String) (render : String → String)
    (webSources : List BriefingSource) :
    Except String (String × List BriefingSource) :=
  if hasClient = false then Except.error "Groq API key not configured"
  else
    match selectedModel with
    | none => Except.error "No Groq model selected. Please select a model first."
    | some m => Except.ok (render ((backend m).getD ""), webSources)

/-- `GroqProvider.generateTweets`: same guards, then the shared
tweet-parsing chain. -/
def generateTweets (hasClient : Bool) (selectedModel : Option String)
    (backend : String → Option String) : Except String (List String) :=
  if hasClient = false then Except.error "Groq API key not configured"
  else
    match selectedModel with
    | none => Except.error "No Groq model selected. Please select a model first."
    | some m => Except.ok (tweetsFromContent ((backend m).getD ""))

end GroqProvider

namespace OllamaProvider

/-- `OllamaProvider.generateSummary`: the Ollama client always exists,
so the only guard is the selected model. -/
def generateSummary (selectedModel : Option String)
    (backend : String → Option String) (render : String → String)
    (webSources : List BriefingSource) :
    Except String (String × List BriefingSource) :=
  match selectedModel with
  | none => Except.error "No Ollama model selected"
  | some m => Except.ok (render ((backend m).getD ""), webSources)

/-- `OllamaProvider.generateTweets`. -/
def generateTweets (selectedModel : Option String)
    (backend : String → Option String) : Except String (List String) :=
  match selectedModel with
  | none => Except.error "No Ollama model selected"
  | some m => Except.ok (tweetsFromContent ((backend m).getD ""))

end OllamaProvider

/-! ## Trending-topic discovery

`JSON.parse(content)` followed by the `topics` field access is modelled
by a `TopicsParse` outcome: the parse threw, or it succeeded without a
usable `topics` array, or it produced the array `ts`. -/

/-- Outcome of `JSON.parse` + `.topics` on a trending response. -/
inductive TopicsParse where
  | parseError
  | noTopics
  | topics (ts : List TrendingTopic)
deriving DecidableEq, Repr

/-- Hard-coded fallback of `GeminiProvider.getTrendingTopics`. -/
def geminiTrendingFallback : List TrendingTopic :=
  [⟨"Technology Updates", "Latest tech developments"⟩,
   ⟨"Global Politics", "Recent political developments"⟩,
   ⟨"Economic News", "Financial market updates"⟩]

namespace GeminiProvider

/-- `GeminiProvider.getTrendingTopics`: on a parse exception it returns
the fixed fallback, but on a successful parse it returns
`parsed.topics` completely unchanged (`parsed.topics` when the field is
an array, the empty list when the field is missing). -/
def getTrendingTopics (hasClient : Bool) (content : String)
    (jsonTopics : String → TopicsParse) :
    Except String (List TrendingTopic) :=
  if hasClient = false then Except.error "Gemini API key not configured"
  else
    Except.ok
      (match jsonTopics content with
       | TopicsParse.topics ts => ts
       | TopicsParse.noTopics => []
       | TopicsParse.parseError => geminiTrendingFallback)

end GeminiProvider

/-- Model of the regex replace of `^\d+\.\s*` (strip a leading
"1. "-style numbering): at least one digit, a literal dot, then any
amount of whitespace. -/
def stripNumbering (line : String) : String :=
  let digits := jsTakeWhile Char.isDigit line
  if digits.length > 0 && jsStartsWith (line.drop digits.length) "." then
    jsDropWhile Char.isWhitespace (line.drop (digits.length + 1))
  else line

/-- The parts of a line split on the two-character double-asterisk
delimiter, scanning left to right. -/
def splitStarsAux (cur : List Char) : List Char → List String
  | [] => [cur.reverse.asString]
  | '*' :: '*' :: rest => cur.reverse.asString :: splitStarsAux [] rest
  | c :: cs => splitStarsAux (c :: cur) cs

/-- Split a line on the double asterisk. -/
def splitOnStars (line : String) : List String :=
  splitStarsAux [] line.toList

/-- Helper for `stripBold`: the parts of the line split on the double
asterisk; each complete pair of delimiters is removed, a trailing
unpaired delimiter is kept. -/
def stripBoldGo : List String → String
  | [] => ""
  | [x] => x
  | [x, y] => x ++ "**" ++ y
  | x :: y :: rest => x ++ y ++ stripBoldGo rest

/-- Model of the global regex replace turning double-asterisk bold
markup into its plain contents. -/
def stripBold (line : String) : String :=
  stripBoldGo (splitOnStars line)

/-- One iteration of the Groq plain-text extraction loop: strip
numbering and bold markup, trim, then split on the first colon when it
occurs at a positive index (title / description), otherwise use the
whole line as title with a generated description. -/
def groqTopicOfLine (line : String) : TrendingTopic :=
  let cleanLine := jsTrim (stripBold (stripNumbering line))
  let before := jsTakeWhile (fun c => c ≠ ':') cleanLine
  if before.length < cleanLine.length && before.length > 0 then
    ⟨jsTrim before, jsTrim (cleanLine.drop (before.length + 1))⟩
  else
    ⟨cleanLine, "Recent developments in " ++ jsToLowerCase cleanLine⟩

/-- Hard-coded final fallback of `GroqProvider.getTrendingTopics`. -/
def groqTrendingFallback : List TrendingTopic :=
  [⟨"Technology Updates", "Latest tech developments and innovations"⟩,
   ⟨"Global Politics", "Recent political developments worldwide"⟩,
   ⟨"Economic News", "Financial market updates and economic trends"⟩]

/-- The Groq plain-text extraction tier: keep lines whose trimmed text
is longer than 10 characters, turn the first three into topics, and
fall back to the fixed list when nothing was extracted. -/
def groqTopicsFromText (content : String) : List TrendingTopic :=
  let lines := (jsSplit content '\n').filter (fun l => (jsTrim l).length > 10)
  let topics := (lines.take 3).map (fun l => groqTopicOfLine (jsTrim l))
  if topics.length = 0 then groqTrendingFallback else topics.take 3

/-- The pure parsing core of `GroqProvider.getTrendingTopics`:
a successfully parsed non-empty `topics` array is capped at three,
anything else goes through the plain-text extraction tier. -/
def groqTopicsFromParse (parse : TopicsParse) (content : String) :
    List TrendingTopic :=
  match parse with
  | TopicsParse.topics ts =>
      if ts.length > 0 then ts.take 3 else groqTopicsFromText content
  | _ => groqTopicsFromText content

namespace GroqProvider

/-- `GroqProvider.getTrendingTopics`: availability guards, backend call,
then the three-tier parse of the response. -/
def getTrendingTopics (hasClient : Bool) (selectedModel : Option String)
    (backend : String → Option String) (jsonTopics : String → TopicsParse) :
    Except String (List TrendingTopic) :=
  if hasClient = false then Except.error "Groq API key not configured"
  else
    match selectedModel with
    | none => Except.error "No Groq model selected. Please select a model first."
    | some m =>
      let content := (backend m).getD ""
      Except.ok (groqTopicsFromParse (jsonTopics content) content)

end GroqProvider

namespace OllamaProvider

/-- `OllamaProvider.getTrendingTopics`: model guard, then JSON parse
with the Ollama-specific fixed fallback (no text-extraction tier). -/
def getTrendingTopics (selectedModel : Option String)
    (backend : String → Option String) (jsonTopics : String → TopicsParse) :
    Except String (List TrendingTopic) :=
  match selectedModel with
  | none => Except.error "No Ollama model selected"
  | some m =>
    Except.ok
      (match jsonTopics ((backend m).getD "") with
       | TopicsParse.topics ts => ts
       | TopicsParse.noTopics => []
       | TopicsParse.parseError =>
           [⟨"AI Development", "Latest AI advancements"⟩,
            ⟨"Tech Innovation", "New technology releases"⟩,
            ⟨"Market Updates", "Financial developments"⟩])

end OllamaProvider

/-! ## Legacy provider layer (second half of lib/ai_providers.ts)

The older `AIProviderManager` generation asks the backends for JSON and
parses it with `JSON.parse`.  Its Groq default model constant and the
functions cited by the specification are modelled here. -/

/-- `CONFIG.GROQ_MODEL` of the legacy layer. -/
def GROQ_MODEL : String := "llama3.2:latest"

/-- Outcome of `JSON.parse` + `.tweets` on a tweet response. -/
inductive TweetsParse where
  | parseError
  | noTweets
  | tweets (ts : List String)
deriving DecidableEq, Repr

/-- Model of `tweet.replace` with the anchored regex removing one
leading and one trailing double quote. -/
def stripQuotes (tweet : String) : String :=
  let t1 := if jsStartsWith tweet "\"" then tweet.drop 1 else tweet
  if jsEndsWith t1 "\"" then t1.dropRight 1 else t1

/-- Legacy `generateTweetsWithGemini`: on a successful parse it returns
`parsed.tweets` (or the empty list when the field is missing) with no
bounds enforcement; only on a parse exception does it fall back to
extracting up to three quoted lines. -/
def generateTweetsWithGemini (hasClient : Bool) (content : String)
    (jsonTweets : String → TweetsParse) : Except String (List String) :=
  if hasClient = false then Except.error "Gemini API key not configured"
  else
    Except.ok
      (match jsonTweets content with
       | TweetsParse.tweets ts => ts
       | TweetsParse.noTweets => []
       | TweetsParse.parseError =>
           (((jsSplit content '\n').filter
               (fun line => jsStartsWith (jsTrim line) "\"")).take 3).map
             stripQuotes)

/-- Legacy `generateWithGroq`: when no model is selected it silently
falls back to `CONFIG.GROQ_MODEL` instead of failing; `backend` maps the
model id actually used to the returned content. -/
def generateWithGroq (hasClient : Bool) (selectedModel : Option String)
    (backend : String → Option String) :
    Except String (String × List BriefingSource) :=
  if hasClient = false then Except.error "Groq API key not configured"
  else
    let model := selectedModel.getD GROQ_MODEL
    Except.ok ((backend model).getD "", [])

/-! ## Model registry and availability aggregation
(module-level `providerState` of the current lib/ai_providers.ts) -/

/-- The module-level `providerState` record. -/
structure ProviderState where
  ollamaModels : List String
  ollamaSelected : Option String
  groqModels : List String
  groqSelected : Option String
deriving DecidableEq, Repr

/-- `setSelectedOllamaModel`: stores the model only when it is a member
of the last-listed Ollama model set, otherwise silently ignores the
call.  (The mirroring call into the provider instance is part of the
same conditional and is subsumed by the single state record.) -/
def setSelectedOllamaModel (s : ProviderState) (model : String) : ProviderState :=
  if s.ollamaModels.contains model then { s with ollamaSelected := some model }
  else s

/-- `getSelectedOllamaModel`. -/
def getSelectedOllamaModel (s : ProviderState) : Option String :=
  s.ollamaSelected

/-- `setSelectedGroqModel`: same silent-ignore policy for Groq. -/
def setSelectedGroqModel (s : ProviderState) (model : String) : ProviderState :=
  if s.groqModels.contains model then { s with groqSelected := some model }
  else s

/-- `getSelectedGroqModel`. -/
def getSelectedGroqModel (s : ProviderState) : Option String :=
  s.groqSelected

/-- The mock model list hard-coded in the current `listOllamaModels`. -/
def mockOllamaModels : List String := ["llama2", "llama2:13b", "codellama"]

/-- Current `listOllamaModels`: stores the mock list and selects its
first element; the surrounding try/catch is dead because nothing in the
body can throw. -/
def listOllamaModels (s : ProviderState) : List String × ProviderState :=
  let models := mockOllamaModels
  (models, { s with ollamaModels := models, ollamaSelected := models.head? })

/-- Current `getAvailableProviders`: gemini and groq are included purely
on their cheap `isAvailable` key checks (`geminiKey`, `groqKey`); ollama
is included when the attempted model listing returns a non-empty list.
No Groq model listing is attempted here. -/
def getAvailableProviders (geminiKey groqKey : Bool) (s : ProviderState) :
    List AIProvider × ProviderState :=
  let a1 := if geminiKey then [AIProvider.gemini] else []
  let a2 := if groqKey then a1 ++ [AIProvider.groq] else a1
  let (models, s1) := listOllamaModels s
  let a3 := if models.length > 0 then a2 ++ [AIProvider.ollama] else a2
  (a3, s1)

/-! ## External search supplement (lib/search.ts) -/

/-- Unreserved characters of `encodeURIComponent`. -/
def isUriUnreserved (c : Char) : Bool :=
  c.isAlpha || c.isDigit ||
    (c = '-' || c = '_' || c = '.' || c = '!' || c = '~' || c = '*' ||
     c = '\x27' || c = '(' || c = ')')

/-- UTF-8 bytes of a code point, as numbers. -/
def utf8Bytes (n : Nat) : List Nat :=
  if n < 128 then [n]
  else if n < 2048 then [192 + n / 64, 128 + n % 64]
  else if n < 65536 then [224 + n / 4096, 128 + (n / 64) % 64, 128 + n % 64]
  else [240 + n / 262144, 128 + (n / 4096) % 64, 128 + (n / 64) % 64,
        128 + n % 64]

/-- Uppercase hex digit of a number below 16. -/
def hexDigit (n : Nat) : Char :=
  if n < 10 then Char.ofNat (48 + n) else Char.ofNat (55 + n)

/-- Percent-encoding of one byte. -/
def percentByte (b : Nat) : String :=
  "%" ++ String.singleton (hexDigit (b / 16 % 16)) ++
    String.singleton (hexDigit (b % 16))

/-- Model of the JavaScript `encodeURIComponent` builtin: unreserved
characters pass through, every other character is replaced by the
percent-encoding of its UTF-8 bytes. -/
def encodeList : List Char → String
  | [] => ""
  | c :: cs =>
      (if isUriUnreserved c then String.singleton c
       else String.join ((utf8Bytes c.toNat).map percentByte)) ++ encodeList cs

/-- Model of `encodeURIComponent`. -/
def encodeURIComponent (s : String) : String :=
  encodeList s.toList

/-- The single fallback source returned by `searchWeb` on any failure. -/
def fallbackSource (query : String) : BriefingSource :=
  ⟨"Search Results Unavailable",
   "https://www.google.com/search?q=" ++ encodeURIComponent query,
   "Could not fetch real-time sources. Click to search Google."⟩

/-- Outcome of the `fetch` to the Wikipedia opensearch endpoint: a
successful JSON array of titles/descriptions/urls, a non-ok HTTP
response (the code then throws into its own catch), or any thrown
error (network failure, malformed JSON, ...). -/
inductive FetchOutcome where
  | success (titles descriptions urls : List String)
  | httpNotOk
  | exn (msg : String)
deriving DecidableEq, Repr

/-- JavaScript `x || d` for an optional string `x`: `undefined` and the
empty string both yield the default. -/
def jsOrDefault (x : Option String) (d : String) : String :=
  match x with
  | some s => if s = "" then d else s
  | none => d

/-- `searchWeb` from lib/search.ts: the whole body is inside a
try/catch, so the function never rejects.  On success each title is
paired with the url and description at the same index and the list is
capped at `maxResults`; on any failure exactly one Google-search
fallback source is returned.  (An out-of-range url index is JavaScript
`undefined`; it is modelled as the empty string and no verified
property depends on it.) -/
def searchWeb (query : String) (maxResults : Nat) (outcome : FetchOutcome) :
    List BriefingSource :=
  match outcome with
  | FetchOutcome.success titles descriptions urls =>
      (titles.enum.map (fun p =>
        { title := p.2,
          url := (urls.get? p.1).getD "",
          snippet := jsOrDefault (descriptions.get? p.1)
            "No description available" : BriefingSource })).take maxResults
  | FetchOutcome.httpNotOk => [fallbackSource query]
  | FetchOutcome.exn _ => [fallbackSource query]

/-! ## Orchestrator (app/actions.ts)

`AIProviderManager.generateSummary / generateTweets` for one resolved
provider are modelled by a `ProviderEnv` of oracles giving the settled
outcome of each call; `Promise.allSettled` over the per-interest
pipelines becomes a `map` of the pure pipeline function, and the
`forEach` aggregation becomes a left fold that appends to the
`briefings` and `errors` accumulators. -/

/-- Settled outcomes of the two generation calls of one provider. -/
structure ProviderEnv where
  generateSummary :
    String → SummaryLength → Except String (String × List BriefingSource)
  generateTweets : String → Except String (List String)

/-- The placeholder tweets substituted by the orchestrator when the
tweet call fails (derived from the interest string; verbatim from
app/actions.ts including the mojibake emoji bytes). -/
def tweetFallbackFor (interest : String) : List String :=
  ["Breaking: New developments in " ++ interest ++ "! ðŸš€",
   "Stay informed about the latest " ++ interest ++
     " updates. Knowledge is power! ðŸ’¡",
   "Another day, another " ++ interest ++
     " breakthrough. The future is now! âš¡"]

/-- `generateSingleBriefingForInterest`: generate the summary (an empty
summary is a hard failure), then the tweets (a tweet failure is
recovered with the interest-derived placeholders); the outer catch
rethrows the failure message unchanged. -/
def generateSingleBriefingForInterest (env : ProviderEnv) (interest : String)
    (summaryLength : SummaryLength) : Except String BriefingItem :=
  match env.generateSummary interest summaryLength with
  | Except.error e => Except.error e
  | Except.ok (summary, sources) =>
    if summary = "" then Except.error "Empty summary generated"
    else
      let tweets :=
        match env.generateTweets summary with
        | Except.ok ts => ts
        | Except.error _ => tweetFallbackFor interest
      Except.ok
        { interest := interest,
          summary := jsTrim summary,
          sources := sources,
          tweets := tweets.take 3,
          error := none }

/-- The error `BriefingItem` pushed for a rejected pipeline: note the
fixed non-empty placeholder summary text. -/
def errorBriefingItem (interest errorMessage : String) : BriefingItem :=
  { interest := interest,
    summary := "Failed to generate summary due to an error.",
    sources := [],
    tweets := [],
    error := some errorMessage }

/-- The caller-visible error message pushed for a rejected pipeline. -/
def briefingErrorText (interest errorMessage : String) : String :=
  "Failed to generate briefing for \"" ++ interest ++ "\": " ++ errorMessage

/-- One step of the `results.forEach((result, index) => ...)`
aggregation. -/
def settleStep (acc : List BriefingItem × List String)
    (p : String × Except String BriefingItem) :
    List BriefingItem × List String :=
  match p.2 with
  | Except.ok value => (acc.1 ++ [value], acc.2)
  | Except.error msg =>
      (acc.1 ++ [errorBriefingItem p.1 msg],
       acc.2 ++ [briefingErrorText p.1 msg])

/-- The aggregation over the settled per-interest results, paired with
the interests they were issued for. -/
def settleResults (interests : List String)
    (results : List (Except String BriefingItem)) :
    List BriefingItem × List String :=
  (interests.zip results).foldl settleStep ([], [])

/-- `generateBriefing` from app/actions.ts: resolve the provider
against the available set (falling back to the first available one, or
terminating with the single top-level error when none is), then fan out
one pipeline per interest and aggregate.  The catch around the
aggregation is dead code because `Promise.allSettled` never rejects. -/
def generateBriefing (available : List AIProvider)
    (env : AIProvider → ProviderEnv) (interests : List String)
    (summaryLength : SummaryLength) (provider : AIProvider) :
    GenerateBriefingResponse :=
  if available.contains provider then
    let results :=
      interests.map (fun i =>
        generateSingleBriefingForInterest (env provider) i summaryLength)
    let settled := settleResults interests results
    ⟨settled.1, settled.2⟩
  else
    match available with
    | p :: _ =>
      let results :=
        interests.map (fun i =>
          generateSingleBriefingForInterest (env p) i summaryLength)
      let settled := settleResults interests results
      ⟨settled.1, settled.2⟩
    | [] =>
      ⟨[], ["No AI providers available. Please configure at least one provider."]⟩

/-! ### Characterisation of the aggregation -/

/-- The briefing entry a given pipeline outcome contributes. -/
def briefingOf (f : String → Except String BriefingItem) (t : String) :
    BriefingItem :=
  match f t with
  | Except.ok v => v
  | Except.error m => errorBriefingItem t m

/-- The error message a given pipeline outcome contributes, if any. -/
def errOf (f : String → Except String BriefingItem) (t : String) :
    Option String :=
  match f t with
  | Except.ok _ => none
  | Except.error m => some (briefingErrorText t m)

theorem settle_go (f : String → Except String BriefingItem) :
    ∀ (l : List String) (b : List BriefingItem) (e : List String),
      (l.zip (l.map f)).foldl settleStep (b, e) =
        (b ++ l.map (briefingOf f), e ++ l.filterMap (errOf f)) := by
  intro l
  induction l with
  | nil => intro b e; simp
  | cons t ts ih =>
    intro b e
    cases h : f t with
    | ok v =>
      simp only [List.map_cons, List.zip_cons_cons, List.foldl_cons,
        settleStep, h, List.filterMap_cons]
      rw [ih]
      simp [briefingOf, errOf, h]
    | error m =>
      simp only [List.map_cons, List.zip_cons_cons, List.foldl_cons,
        settleStep, h, List.filterMap_cons]
      rw [ih]
      simp [briefingOf, errOf, h]

theorem settleResults_eq (interests : List String)
    (f : String → Except String BriefingItem) :
    settleResults interests (interests.map f) =
      (interests.map (briefingOf f), interests.filterMap (errOf f)) := by
  unfold settleResults
  rw [settle_go]
  simp

theorem generateBriefing_resolved (available : List AIProvider)
    (env : AIProvider → ProviderEnv) (interests : List String)
    (summaryLength : SummaryLength) (provider : AIProvider)
    (h : provider ∈ available) :
    generateBriefing available env interests summaryLength provider =
      ⟨interests.map (briefingOf (fun i =>
          generateSingleBriefingForInterest (env provider) i summaryLength)),
        interests.filterMap (errOf (fun i =>
          generateSingleBriefingForInterest (env provider) i summaryLength))⟩ := by
  unfold generateBriefing
  have hc : available.contains provider = true := by
    simpa using List.elem_eq_true_of_mem h
  rw [hc]
  simp only [if_true]
  rw [settleResults_eq]

/-- Every briefing entry carries the interest it was requested for,
whether the pipeline succeeded or failed. -/
theorem interest_briefingOf (env : ProviderEnv) (len : SummaryLength)
    (t : String) :
    (briefingOf (fun i => generateSingleBriefingForInterest env i len)
        t).interest = t := by
  unfold briefingOf generateSingleBriefingForInterest
  cases h : env.generateSummary t len with
  | error e => simp [h, errorBriefingItem]
  | ok p =>
    obtain ⟨s, src⟩ := p
    by_cases hs : s = ""
    · simp [h, hs, errorBriefingItem]
    · cases ht : env.generateTweets s <;> simp [h, hs, ht]

/-- A successful pipeline contributes no error message. -/
theorem errOf_eq_none_of_isOk (f : String → Except String BriefingItem)
    (t : String) (h : (f t).isOk) : errOf f t = none := by
  unfold errOf
  cases hf : f t with
  | error m => rw [hf] at h; simp [Except.isOk, Except.toBool] at h
  | ok v => rfl

/-! ## Claim C2 -/

/-- C2: for every topic list and every provider whose generation calls
all succeed, `generateBriefing` returns exactly one `BriefingItem` per
topic, with the topics in input order, and an empty error list. -/
theorem generateBriefing_all_success (available : List AIProvider)
    (env : AIProvider → ProviderEnv) (interests : List String)
    (len : SummaryLength) (provider : AIProvider)
    (hprov : provider ∈ available)
    (hok : ∀ t ∈ interests,
      (generateSingleBriefingForInterest (env provider) t len).isOk) :
    (generateBriefing available env interests len provider).briefings.length =
        interests.length ∧
    (generateBriefing available env interests len provider).briefings.map
        (fun b => b.interest) = interests ∧
    (generateBriefing available env interests len provider).errors = [] := by
  rw [generateBriefing_resolved available env interests len provider hprov]
  refine ⟨by simp, ?_, ?_⟩
  · simp only [List.map_map]
    have : ∀ t ∈ interests,
        ((fun b => b.interest) ∘
          briefingOf (fun i =>
            generateSingleBriefingForInterest (env provider) i len)) t =
          id t := by
      intro t _
      simp [interest_briefingOf]
    rw [List.map_congr_left this, List.map_id]
  · simp only []
    rw [List.filterMap_eq_nil_iff]
    intro t ht
    exact errOf_eq_none_of_isOk _ t (hok t ht)

/-- All-success environment used by the C2 witness. -/
def envAllOk : AIProvider → ProviderEnv := fun _ =>
  ⟨fun _ _ => Except.ok ("A fine summary.", []),
   fun _ => Except.ok ["first tweet line", "second tweet line"]⟩

/-- Witness for C2 at a concrete two-topic briefing. -/
theorem generateBriefing_all_success_witness :
    (generateBriefing [AIProvider.gemini] envAllOk ["ai", "space"]
        SummaryLength.short AIProvider.gemini).briefings.length = 2 ∧
    (generateBriefing [AIProvider.gemini] envAllOk ["ai", "space"]
        SummaryLength.short AIProvider.gemini).briefings.map
        (fun b => b.interest) = ["ai", "space"] ∧
    (generateBriefing [AIProvider.gemini] envAllOk ["ai", "space"]
        SummaryLength.short AIProvider.gemini).errors = [] :=
  generateBriefing_all_success [AIProvider.gemini] envAllOk ["ai", "space"]
    SummaryLength.short AIProvider.gemini (by simp) (by decide)

/-! ## Claim C6 -/

/-- C6: with no available provider, `generateBriefing` returns an empty
briefing list and exactly one top-level error message; the result is
independent of the generation environment, so no generation call is
consulted. -/
theorem generateBriefing_no_providers (env : AIProvider → ProviderEnv)
    (interests : List String) (len : SummaryLength) (provider : AIProvider) :
    generateBriefing [] env interests len provider =
      ⟨[], ["No AI providers available. Please configure at least one provider."]⟩ ∧
    (generateBriefing [] env interests len provider).briefings = [] ∧
    (generateBriefing [] env interests len provider).errors.length = 1 := by
  refine ⟨rfl, rfl, rfl⟩

/-! ## Claim C1 -/

/-- Environment whose summary call always fails with the message
`boom`. -/
def envSummaryFails : AIProvider → ProviderEnv := fun _ =>
  ⟨fun _ _ => Except.error "boom", fun _ => Except.ok []⟩

/-- Counterexample to C1 as stated: when the single topic of the
briefing fails, the failing entry's summary is the fixed placeholder
sentence, not the empty string claimed by the specification. -/
theorem generateBriefing_failing_summary_not_empty :
    (generateBriefing [AIProvider.gemini] envSummaryFails
        ["quantum computing"] SummaryLength.short
        AIProvider.gemini).briefings.map (fun b => b.summary) =
      ["Failed to generate summary due to an error."] ∧
     "Failed to generate summary due to an error." ≠ "" := by
  exact ⟨rfl, by decide⟩

/-- C1 (amended): when exactly one topic's pipeline fails, the result
still has one entry per topic in order; the failing entry carries the
fixed placeholder summary, no tweets and the failure message in its
`error` field; the error list holds exactly one message, which embeds
the failing topic; and every other entry is exactly the success value
its own pipeline produced. -/
theorem generateBriefing_single_failure (available : List AIProvider)
    (env : AIProvider → ProviderEnv) (pre post : List String)
    (t0 m : String) (len : SummaryLength) (provider : AIProvider)
    (hprov : provider ∈ available)
    (hok : ∀ t ∈ pre ++ post,
      (generateSingleBriefingForInterest (env provider) t len).isOk)
    (hfail : generateSingleBriefingForInterest (env provider) t0 len =
      Except.error m) :
    (generateBriefing available env (pre ++ t0 :: post) len
        provider).briefings =
      pre.map (briefingOf (fun i =>
          generateSingleBriefingForInterest (env provider) i len)) ++
        errorBriefingItem t0 m ::
          post.map (briefingOf (fun i =>
            generateSingleBriefingForInterest (env provider) i len)) ∧
    (generateBriefing available env (pre ++ t0 :: post) len
        provider).briefings.length = (pre ++ t0 :: post).length ∧
    (generateBriefing available env (pre ++ t0 :: post) len
        provider).errors = [briefingErrorText t0 m] ∧
    (errorBriefingItem t0 m).summary =
        "Failed to generate summary due to an error." ∧
    (errorBriefingItem t0 m).error = some m ∧
    (errorBriefingItem t0 m).tweets = [] ∧
    (∃ a b, briefingErrorText t0 m = a ++ t0 ++ b) ∧
    (∀ t ∈ pre ++ post, ∀ v,
      generateSingleBriefingForInterest (env provider) t len = Except.ok v →
        briefingOf (fun i =>
          generateSingleBriefingForInterest (env provider) i len) t = v) := by
  rw [generateBriefing_resolved available env (pre ++ t0 :: post) len
    provider hprov]
  have hpre : ∀ t ∈ pre,
      errOf (fun i =>
        generateSingleBriefingForInterest (env provider) i len) t = none :=
    fun t ht => errOf_eq_none_of_isOk _ t (hok t (List.mem_append_left _ ht))
  have hpost : ∀ t ∈ post,
      errOf (fun i =>
        generateSingleBriefingForInterest (env provider) i len) t = none :=
    fun t ht => errOf_eq_none_of_isOk _ t (hok t (List.mem_append_right _ ht))
  refine ⟨?_, by simp, ?_, rfl, rfl, rfl, ?_, ?_⟩
  · simp only [List.map_append, List.map_cons, briefingOf, hfail]
  · simp only [List.filterMap_append, List.filterMap_cons, errOf, hfail]
    rw [List.filterMap_eq_nil_iff.mpr hpre,
      List.filterMap_eq_nil_iff.mpr hpost]
    simp [errOf]
  · refine ⟨"Failed to generate briefing for \"", "\": " ++ m, ?_⟩
    unfold briefingErrorText
    rw [String.append_assoc]
  · intro t _ v hv
    unfold briefingOf
    simp only []
    rw [hv]

/-- Witness for the amended C1 at a concrete single-topic briefing
whose only pipeline fails. -/
theorem generateBriefing_single_failure_witness :
    (generateBriefing [AIProvider.gemini] envSummaryFails
        (([] : List String) ++ "quantum computing" :: []) SummaryLength.short
        AIProvider.gemini).briefings =
      ([] : List String).map (briefingOf (fun i =>
          generateSingleBriefingForInterest (envSummaryFails AIProvider.gemini)
            i SummaryLength.short)) ++
        errorBriefingItem "quantum computing" "boom" ::
          ([] : List String).map (briefingOf (fun i =>
            generateSingleBriefingForInterest
              (envSummaryFails AIProvider.gemini) i SummaryLength.short)) ∧
    (generateBriefing [AIProvider.gemini] envSummaryFails
        (([] : List String) ++ "quantum computing" :: []) SummaryLength.short
        AIProvider.gemini).briefings.length =
      (([] : List String) ++ "quantum computing" :: []).length ∧
    (generateBriefing [AIProvider.gemini] envSummaryFails
        (([] : List String) ++ "quantum computing" :: []) SummaryLength.short
        AIProvider.gemini).errors =
      [briefingErrorText "quantum computing" "boom"] ∧
    (errorBriefingItem "quantum computing" "boom").summary =
        "Failed to generate summary due to an error." ∧
    (errorBriefingItem "quantum computing" "boom").error = some "boom" ∧
    (errorBriefingItem "quantum computing" "boom").tweets = [] ∧
    (∃ a b, briefingErrorText "quantum computing" "boom" =
        a ++ "quantum computing" ++ b) ∧
    (∀ t ∈ ([] : List String) ++ ([] : List String), ∀ v,
      generateSingleBriefingForInterest (envSummaryFails AIProvider.gemini) t
          SummaryLength.short = Except.ok v →
        briefingOf (fun i =>
          generateSingleBriefingForInterest (envSummaryFails AIProvider.gemini)
            i SummaryLength.short) t = v) :=
  generateBriefing_single_failure [AIProvider.gemini] envSummaryFails [] []
    "quantum computing" "boom" SummaryLength.short AIProvider.gemini
    (by simp) (by simp) (by rfl)

/-! ## Claim C9 -/

/-- C9: inside one pipeline, an empty summary is a hard failure of the
pipeline, while a failing tweet call is recovered: the pipeline still
succeeds, with three placeholder tweets each derived from the topic
string. -/
theorem pipeline_empty_summary_and_tweet_recovery (envA envB : ProviderEnv)
    (interest : String) (len : SummaryLength)
    (srcsA srcsB : List BriefingSource) (s e : String)
    (hA : envA.generateSummary interest len = Except.ok ("", srcsA))
    (hB1 : envB.generateSummary interest len = Except.ok (s, srcsB))
    (hB2 : s ≠ "")
    (hB3 : envB.generateTweets s = Except.error e) :
    generateSingleBriefingForInterest envA interest len =
        Except.error "Empty summary generated" ∧
    generateSingleBriefingForInterest envB interest len =
        Except.ok ⟨interest, jsTrim s, srcsB,
          (tweetFallbackFor interest).take 3, none⟩ ∧
    (tweetFallbackFor interest).length = 3 ∧
    (∀ tw ∈ tweetFallbackFor interest, ∃ a b, tw = a ++ interest ++ b) := by
  refine ⟨?_, ?_, rfl, ?_⟩
  · unfold generateSingleBriefingForInterest
    rw [hA]
    simp
  · unfold generateSingleBriefingForInterest
    rw [hB1]
    simp [hB2, hB3]
  · intro tw htw
    simp only [tweetFallbackFor, List.mem_cons, List.not_mem_nil,
      or_false] at htw
    rcases htw with h | h | h
    · exact ⟨"Breaking: New developments in ", "! ðŸš€", by rw [h]⟩
    · exact ⟨"Stay informed about the latest ",
        " updates. Knowledge is power! ðŸ’¡", by rw [h]⟩
    · exact ⟨"Another day, another ",
        " breakthrough. The future is now! âš¡", by rw [h]⟩

/-- Environment with an empty summary, for the C9 witness. -/
def envEmptySummary : ProviderEnv :=
  ⟨fun _ _ => Except.ok ("", []), fun _ => Except.ok []⟩

/-- Environment whose tweet call fails, for the C9 witness. -/
def envTweetFails : ProviderEnv :=
  ⟨fun _ _ => Except.ok ("hello world", []), fun _ => Except.error "tweet-fail"⟩

/-- Witness for C9 at concrete environments. -/
theorem pipeline_empty_summary_and_tweet_recovery_witness :
    generateSingleBriefingForInterest envEmptySummary "ai" SummaryLength.short =
        Except.error "Empty summary generated" ∧
    generateSingleBriefingForInterest envTweetFails "ai" SummaryLength.short =
        Except.ok ⟨"ai", jsTrim "hello world", [],
          (tweetFallbackFor "ai").take 3, none⟩ ∧
    (tweetFallbackFor "ai").length = 3 ∧
    (∀ tw ∈ tweetFallbackFor "ai", ∃ a b, tw = a ++ "ai" ++ b) :=
  pipeline_empty_summary_and_tweet_recovery envEmptySummary envTweetFails
    "ai" SummaryLength.short [] [] "hello world" "tweet-fail"
    rfl rfl (by decide) rfl

/-! ## Claim C3 -/

/-- Oracle agreeing with the real `JSON.parse` on the inputs of the C3
counterexample: parsing the empty string throws a SyntaxError. -/
def jsonTweetsOfEmpty : String → TweetsParse := fun _ => TweetsParse.parseError

/-- Oracle agreeing with the real `JSON.parse` on a response whose
`tweets` field is an array of four strings. -/
def jsonTweetsOfFour : String → TweetsParse := fun _ =>
  TweetsParse.tweets ["one", "two", "three", "four"]

/-- Counterexample to C3 as stated over the cited legacy
`generateTweetsWithGemini`: the empty backend response yields zero
tweets (violating the at-least-one bound), and a parsed response with a
four-element `tweets` array is returned unchanged (violating the
at-most-three bound). -/
theorem generateTweetsWithGemini_zero_or_four :
    generateTweetsWithGemini true "" jsonTweetsOfEmpty = Except.ok [] ∧
    ¬(1 ≤ ([] : List String).length) ∧
    generateTweetsWithGemini true "\x7b\"tweets\": [\"one\", \"two\", \"three\", \"four\"]\x7d"
        jsonTweetsOfFour = Except.ok ["one", "two", "three", "four"] ∧
    ¬((["one", "two", "three", "four"] : List String).length ≤ 3) := by
  exact ⟨rfl, by decide, rfl, by decide⟩

/-- C3 (amended): the class-based `generateTweets` of all three current
providers always returns between 1 and 3 posts — filtered lines are
capped at three and the fixed placeholder list is substituted when
filtering leaves nothing — for every backend response, including the
empty string; the bound does not extend to the cited legacy
`generateTweetsWithGemini`. -/
theorem generateTweets_between_one_and_three (content : String) (m : String)
    (backend : String → Option String) :
    GeminiProvider.generateTweets true content =
        Except.ok (tweetsFromContent content) ∧
    GroqProvider.generateTweets true (some m) backend =
        Except.ok (tweetsFromContent ((backend m).getD "")) ∧
    OllamaProvider.generateTweets (some m) backend =
        Except.ok (tweetsFromContent ((backend m).getD "")) ∧
    1 ≤ (tweetsFromContent content).length ∧
    (tweetsFromContent content).length ≤ 3 := by
  exact ⟨rfl, rfl, rfl, (tweetsFromContent_bounds content).1,
    (tweetsFromContent_bounds content).2⟩

/-! ## Claim C4 -/

/-- Oracle agreeing with the real `JSON.parse` on the input of the C4
counterexample: a JSON object whose `topics` field is the empty
array. -/
def jsonTopicsOfEmptyArray : String → TopicsParse := fun _ =>
  TopicsParse.topics []

/-- Counterexample to C4 as stated: `GeminiProvider.getTrendingTopics`
returns a successfully parsed `topics` array unchanged, so the backend
response consisting of a JSON object with an empty `topics` array
produces zero trending topics. -/
theorem geminiGetTrendingTopics_empty :
    GeminiProvider.getTrendingTopics true "\x7b\"topics\": []\x7d"
        jsonTopicsOfEmptyArray = Except.ok [] ∧
    ¬(1 ≤ ([] : List TrendingTopic).length) := by
  exact ⟨rfl, by decide⟩

/-- The cap-or-fallback step keeps the topic count between 1 and 3. -/
theorem topicsCapBounds (fallback ts : List TrendingTopic)
    (h3 : fallback.length = 3) :
    1 ≤ (if ts.length = 0 then fallback else ts.take 3).length ∧
      (if ts.length = 0 then fallback else ts.take 3).length ≤ 3 := by
  by_cases h : ts.length = 0
  · rw [if_pos h]
    omega
  · rw [if_neg h]
    rw [List.length_take]
    omega

theorem groqTopicsFromText_bounds (content : String) :
    1 ≤ (groqTopicsFromText content).length ∧
      (groqTopicsFromText content).length ≤ 3 := by
  unfold groqTopicsFromText
  exact topicsCapBounds groqTrendingFallback _ (by decide)

/-- C4 (amended): `GroqProvider.getTrendingTopics` always produces
between 1 and 3 topics for every parse outcome and every response text
(three-tier fallback), and `GeminiProvider.getTrendingTopics` returns
the fixed three-item fallback whenever parsing throws; but on a
successful parse the Gemini variant returns the parsed array unchanged,
so the 1..3 bound does not hold for it. -/
theorem getTrendingTopics_bounds (parse : TopicsParse) (content : String)
    (m : String) (backend : String → Option String)
    (jt : String → TopicsParse) (c2 : String)
    (hparse : jt c2 = TopicsParse.parseError) :
    1 ≤ (groqTopicsFromParse parse content).length ∧
    (groqTopicsFromParse parse content).length ≤ 3 ∧
    GroqProvider.getTrendingTopics true (some m) backend jt =
        Except.ok (groqTopicsFromParse (jt ((backend m).getD ""))
          ((backend m).getD "")) ∧
    GeminiProvider.getTrendingTopics true c2 jt =
        Except.ok geminiTrendingFallback ∧
    geminiTrendingFallback.length = 3 := by
  refine ⟨?_, ?_, rfl, ?_, rfl⟩
  · unfold groqTopicsFromParse
    cases parse with
    | parseError => exact (groqTopicsFromText_bounds content).1
    | noTopics => exact (groqTopicsFromText_bounds content).1
    | topics ts =>
      by_cases h : ts.length > 0
      · simp only [h, if_pos]
        rw [List.length_take]
        omega
      · simp only [h, if_neg]
        exact (groqTopicsFromText_bounds content).1
  · unfold groqTopicsFromParse
    cases parse with
    | parseError => exact (groqTopicsFromText_bounds content).2
    | noTopics => exact (groqTopicsFromText_bounds content).2
    | topics ts =>
      by_cases h : ts.length > 0
      · simp only [h, if_pos]
        rw [List.length_take]
        omega
      · simp only [h, if_neg]
        exact (groqTopicsFromText_bounds content).2
  · unfold GeminiProvider.getTrendingTopics
    rw [hparse]
    rfl

/-- Oracle for the C4 witness, agreeing with the real `JSON.parse` on
unparseable garbage. -/
def jsonTopicsOfGarbage : String → TopicsParse := fun _ =>
  TopicsParse.parseError

/-- Witness for the amended C4 at concrete inputs. -/
theorem getTrendingTopics_bounds_witness :
    1 ≤ (groqTopicsFromParse TopicsParse.parseError "garbage").length ∧
    (groqTopicsFromParse TopicsParse.parseError "garbage").length ≤ 3 ∧
    GroqProvider.getTrendingTopics true (some "llama3-8b-8192")
        (fun _ => some "garbage") jsonTopicsOfGarbage =
      Except.ok (groqTopicsFromParse
        (jsonTopicsOfGarbage (((fun _ => some "garbage") "llama3-8b-8192").getD ""))
        (((fun _ => some "garbage") "llama3-8b-8192").getD "")) ∧
    GeminiProvider.getTrendingTopics true "garbage" jsonTopicsOfGarbage =
        Except.ok geminiTrendingFallback ∧
    geminiTrendingFallback.length = 3 :=
  getTrendingTopics_bounds TopicsParse.parseError "garbage" "llama3-8b-8192"
    (fun _ => some "garbage") jsonTopicsOfGarbage "garbage" rfl

/-! ## Claim C5 -/

/-- Counterexample to C5 as stated: the cited legacy `generateWithGroq`
called with no selected model does not fail — it silently substitutes
the default `CONFIG.GROQ_MODEL` and succeeds.  The echoing backend
shows that the model actually used is the default. -/
theorem generateWithGroq_silently_defaults :
    generateWithGroq true none (fun model => some model) =
        Except.ok ("llama3.2:latest", []) ∧
    GROQ_MODEL = "llama3.2:latest" := by
  exact ⟨rfl, rfl⟩

/-- C5 (amended): every generation call of the class-based Groq and
Ollama adapters made with no selected model fails immediately with a
descriptive error, for every backend behaviour; the cited legacy
`generateWithGroq` is the exception and silently falls back to the
default model. -/
theorem no_model_selected_fails_fast (backend : String → Option String)
    (render : String → String) (webSources : List BriefingSource)
    (jsonTopics : String → TopicsParse) :
    GroqProvider.generateSummary true none backend render webSources =
        Except.error "No Groq model selected. Please select a model first." ∧
    GroqProvider.generateTweets true none backend =
        Except.error "No Groq model selected. Please select a model first." ∧
    GroqProvider.getTrendingTopics true none backend jsonTopics =
        Except.error "No Groq model selected. Please select a model first." ∧
    OllamaProvider.generateSummary none backend render webSources =
        Except.error "No Ollama model selected" ∧
    OllamaProvider.generateTweets none backend =
        Except.error "No Ollama model selected" ∧
    OllamaProvider.getTrendingTopics none backend jsonTopics =
        Except.error "No Ollama model selected" := by
  exact ⟨rfl, rfl, rfl, rfl, rfl, rfl⟩

/-! ## Claim C7 -/

/-- C7: selecting a model id that is in the last-listed model set makes
`getSelectedModel` return it; selecting an id outside that set leaves
the previously selected model unchanged, for both Groq and Ollama. -/
theorem selectModel_getSelectedModel (s : ProviderState) (m : String) :
    (m ∈ s.groqModels →
      getSelectedGroqModel (setSelectedGroqModel s m) = some m) ∧
    (m ∉ s.groqModels →
      getSelectedGroqModel (setSelectedGroqModel s m) =
        getSelectedGroqModel s) ∧
    (m ∈ s.ollamaModels →
      getSelectedOllamaModel (setSelectedOllamaModel s m) = some m) ∧
    (m ∉ s.ollamaModels →
      getSelectedOllamaModel (setSelectedOllamaModel s m) =
        getSelectedOllamaModel s) := by
  unfold getSelectedGroqModel setSelectedGroqModel getSelectedOllamaModel
    setSelectedOllamaModel
  refine ⟨fun h => ?_, fun h => ?_, fun h => ?_, fun h => ?_⟩
  · rw [if_pos (by simpa using List.elem_eq_true_of_mem h)]
  · rw [if_neg (by simpa using h)]
  · rw [if_pos (by simpa using List.elem_eq_true_of_mem h)]
  · rw [if_neg (by simpa using h)]

/-- Registry state used by the C7 witness. -/
def registryStateW : ProviderState :=
  ⟨["llama2", "codellama"], some "llama2", ["llama3-8b-8192"], some "prev"⟩

/-- Witness for C7: a member id is selected, a non-member id leaves the
previous selection in place, on both registries. -/
theorem selectModel_getSelectedModel_witness :
    getSelectedGroqModel (setSelectedGroqModel registryStateW "llama3-8b-8192") =
        some "llama3-8b-8192" ∧
    getSelectedGroqModel (setSelectedGroqModel registryStateW "absent-model") =
        getSelectedGroqModel registryStateW ∧
    getSelectedOllamaModel (setSelectedOllamaModel registryStateW "codellama") =
        some "codellama" ∧
    getSelectedOllamaModel (setSelectedOllamaModel registryStateW "absent-model") =
        getSelectedOllamaModel registryStateW :=
  ⟨(selectModel_getSelectedModel registryStateW "llama3-8b-8192").1
      (by decide),
   (selectModel_getSelectedModel registryStateW "absent-model").2.1
      (by decide),
   (selectModel_getSelectedModel registryStateW "codellama").2.2.1
      (by decide),
   (selectModel_getSelectedModel registryStateW "absent-model").2.2.2
      (by decide)⟩

/-! ## Claim C8 -/

/-- Counterexample to C8 as stated: with only the Groq key configured
and an empty Groq model list, `getAvailableProviders` still reports
groq as available, and it leaves the Groq model state untouched — no
Groq model listing is attempted at all, so availability is not gated on
a non-empty Groq model list. -/
theorem getAvailableProviders_groq_without_models :
    (getAvailableProviders false true ⟨[], none, [], none⟩).1.contains
        AIProvider.groq = true ∧
    (getAvailableProviders false true ⟨[], none, [], none⟩).2.groqModels =
        [] := by
  exact ⟨rfl, rfl⟩

/-- C8 (amended): a provider is reported available exactly as follows —
gemini and groq purely by their cheap credential checks (the Groq model
list is never consulted and its state is untouched), and ollama by the
attempted model listing returning a non-empty list, which the mocked
listing always does. -/
theorem getAvailableProviders_characterisation (geminiKey groqKey : Bool)
    (s : ProviderState) :
    (getAvailableProviders geminiKey groqKey s).1 =
      (if geminiKey then [AIProvider.gemini] else []) ++
        (if groqKey then [AIProvider.groq] else []) ++ [AIProvider.ollama] ∧
    (AIProvider.gemini ∈ (getAvailableProviders geminiKey groqKey s).1 ↔
        geminiKey = true) ∧
    (AIProvider.groq ∈ (getAvailableProviders geminiKey groqKey s).1 ↔
        groqKey = true) ∧
    AIProvider.ollama ∈ (getAvailableProviders geminiKey groqKey s).1 ∧
    (listOllamaModels s).1 ≠ [] ∧
    (getAvailableProviders geminiKey groqKey s).2.groqModels = s.groqModels ∧
    (getAvailableProviders geminiKey groqKey s).2.groqSelected =
        s.groqSelected := by
  cases geminiKey <;> cases groqKey <;>
    simp [getAvailableProviders, listOllamaModels, mockOllamaModels]

/-! ## Claim C10 -/

/-- A string of unreserved characters is left unchanged by the
`encodeURIComponent` model. -/
theorem encodeList_of_unreserved (l : List Char)
    (h : ∀ c ∈ l, isUriUnreserved c) : encodeList l = l.asString := by
  induction l with
  | nil => rfl
  | cons c cs ih =>
    have hc : isUriUnreserved c = true := h c (by simp)
    have ih2 := ih (fun x hx => h x (by simp [hx]))
    unfold encodeList
    rw [if_pos hc, ih2]
    rfl

theorem encodeURIComponent_of_unreserved (q : String)
    (h : ∀ c ∈ q.toList, isUriUnreserved c) : encodeURIComponent q = q := by
  unfold encodeURIComponent
  rw [encodeList_of_unreserved q.toList h]
  cases q
  rfl

/-- C10: for every query, result cap and fetch outcome, `searchWeb`
returns (it never rejects — the model is a total function) at most
`maxResults` sources; on a non-ok HTTP response or a thrown error it
returns exactly the single Google-search fallback source, whose url
embeds the encoded query — and literally contains the query whenever
the query consists of unreserved characters. -/
theorem searchWeb_cap_and_fallback (query : String) (maxResults : Nat)
    (outcome : FetchOutcome) (msg : String) (h : 1 ≤ maxResults) :
    (searchWeb query maxResults outcome).length ≤ maxResults ∧
    searchWeb query maxResults (FetchOutcome.exn msg) =
        [fallbackSource query] ∧
    searchWeb query maxResults FetchOutcome.httpNotOk =
        [fallbackSource query] ∧
    (fallbackSource query).url =
        "https://www.google.com/search?q=" ++ encodeURIComponent query ∧
    ((∀ c ∈ query.toList, isUriUnreserved c) →
      ∃ a, (fallbackSource query).url = a ++ query) := by
  refine ⟨?_, rfl, rfl, rfl, ?_⟩
  · cases outcome with
    | success titles descriptions urls =>
      unfold searchWeb
      rw [List.length_take]
      omega
    | httpNotOk => simpa using h
    | exn m => simpa using h
  · intro hq
    exact ⟨"https://www.google.com/search?q=", by
      unfold fallbackSource
      rw [encodeURIComponent_of_unreserved query hq]⟩

/-- Witness for C10 at a concrete failing search. -/
theorem searchWeb_cap_and_fallback_witness :
    (searchWeb "quantum" 5 (FetchOutcome.exn "network down")).length ≤ 5 ∧
    searchWeb "quantum" 5 (FetchOutcome.exn "network down") =
        [fallbackSource "quantum"] ∧
    searchWeb "quantum" 5 FetchOutcome.httpNotOk = [fallbackSource "quantum"] ∧
    (fallbackSource "quantum").url =
        "https://www.google.com/search?q=" ++ encodeURIComponent "quantum" ∧
    ((∀ c ∈ "quantum".toList, isUriUnreserved c) →
      ∃ a, (fallbackSource "quantum").url = a ++ "quantum") :=
  searchWeb_cap_and_fallback "quantum" 5 (FetchOutcome.exn "network down")
    "network down" (by decide)
